import Mathlib

/-!
Verification development for the `interactivelayer` repository: a shallow
embedding of the `InteractiveVideoPlayer` React component
(`src/unnamed/part_000`, default-exported as `interactiveVideo`) together with
the example configuration of `src/src/App.jsx`.

Modelling conventions:
  * Playback time is `ℚ` (JS numbers; the claims involve exact comparisons
    such as `> end + 0.05`, written `> end + 1/20` here).
  * JS objects with optional fields become structures with `Option` fields;
    `typeof x === "number"` becomes `Option.isSome`.
  * React state is one record `PState`.  Each `useEffect` body / handler
    becomes a total function `PState → PState`; a `timeupdate` event is the
    `tick` function, which runs the two effects in their declaration order
    (the chained-boundary-watch effect of lines 135-149, then the segment
    entry/exit effect of lines 152-220).  Events passed to `onEvent` are
    accumulated in `PState.events`.
  * The `<video>` element is a sub-record `VideoState`; `v.play()` failure
    (autoplay restriction) is the environment flag `playFails`; the
    `.catch(() => {})` of the source makes the failing branch leave the
    state unchanged rather than raising an error.
  * `videoRef.current` is always non-null (the component is mounted); the
    `if (!v) return` guards of the source are therefore not modelled.
-/

namespace InteractiveLayer

/-- An entry of the `sources` prop: `{ id, src, type?, poster? }`.  Only the
fields the core logic reads are modelled (`type`/`poster` feed the `<video>`
markup only). -/
structure Source where
  id : String
  src : String
deriving DecidableEq

/-- `Action` config shape: `{ type, to?, sourceId?, startAt? }` as documented
at lines 46-51, plus the `start`/`end` fields that the example config of
`App.jsx` uses and that `performAction` / the chained-watch effect read. -/
structure Action where
  type : String
  «to» : Option ℚ := none
  start : Option ℚ := none
  «end» : Option ℚ := none
  sourceId : Option String := none
  startAt : Option ℚ := none
deriving DecidableEq

/-- Hotspot config shape; `label`, `rect` and `visible` are presentation-only
and not read by the claims under study.  `onEnd` is the sibling field the
chained-watch effect reads (`seekTo(activeHotspot?.onEnd)`, line 144). -/
structure Hotspot where
  id : String
  action : Option Action := none
  onEnd : Option ℚ := none
deriving DecidableEq

/-- Segment config shape (lines 26-35). -/
structure Segment where
  id : String
  start : ℚ
  «end» : ℚ
  requireChoice : Bool := false
  loopOnNoChoice : Bool := false
  maxLoops : Option ℕ := none
  defaultAction : Option Action := none
  hotspots : List Hotspot := []
deriving DecidableEq

/-- The payloads handed to the `onEvent` analytics hook. -/
inductive Event where
  | segmentEnter (segmentId : String)
  | segmentLoop (segmentId : String) (loops : ℕ)
  | segmentAutoselect (segmentId : String)
  | sourceSwitch (sourceId : String) (startAt : ℚ)
  | hotspotClick (hotspotId : String) (segmentId : Option String)
deriving DecidableEq

/-- The `<video>` element as the core observes it.  `duration = none` models
an unknown (`NaN`/unset) duration; `playFails` is the environment: whether
`v.play()` would reject (autoplay restriction). -/
structure VideoState where
  time : ℚ
  duration : Option ℚ := none
  paused : Bool := true
  playFails : Bool := false
deriving DecidableEq

/-- The React state of one `InteractiveVideoPlayer` instance (lines 94-101),
plus the video element and the accumulated `onEvent` stream. -/
structure PState where
  video : VideoState
  currentSourceId : String
  ready : Bool := false
  currentTime : ℚ := 0
  activeSegmentId : Option String := none
  activeHotspot : Option Hotspot := none
  loopCountBySeg : List (String × ℕ) := []
  userChoseInSegment : Bool := false
  showOverlays : Bool := true
  events : List Event := []
deriving DecidableEq

/-- `function clamp(v, min, max) { return Math.max(min, Math.min(max, v)); }`
(lines 54-56). -/
def clamp (v lo hi : ℚ) : ℚ := max lo (min hi v)

/-- JS `d || alt` for the duration read in `seekTo` (line 225): `undefined`,
`NaN` and `0` are falsy, any other number is truthy. -/
def jsOrDur : Option ℚ → ℚ → ℚ
  | some d, alt => if d = 0 then alt else d
  | none, alt => alt

/-- JS truthiness of `action.sourceId` (line 236): absent and the empty
string are falsy. -/
def jsTruthyStr : Option String → Bool
  | some s => !(s == "")
  | none => false

/-- `loopCountBySeg[seg.id] || 0` (line 180). -/
def lookupLoop (m : List (String × ℕ)) (id : String) : ℕ :=
  match m.find? (fun p => p.1 == id) with
  | some p => p.2
  | none => 0

/-- The object spread `{...prev, [seg.id]: loops}` (lines 183-186): replace
the binding of `id` (first occurrence), or append it. -/
def setLoop : List (String × ℕ) → String → ℕ → List (String × ℕ)
  | [], id, n => [(id, n)]
  | (k, v) :: rest, id, n =>
      if k == id then (k, n) :: rest else (k, v) :: setLoop rest id n

/-- `activeSegment` memo (lines 110-118): first segment of the configured
list whose closed interval `[start, end]` contains the current time, else
none. -/
def activeSegmentOf (segments : List Segment) (t : ℚ) : Option Segment :=
  segments.find? (fun seg => decide (seg.start ≤ t) && decide (t ≤ seg.«end»))

/-- `currentSource` memo (lines 103-108):
`sources.find((s) => s.id === currentSourceId) || sources[0]`. -/
def currentSource (sources : List Source) (currentSourceId : String) :
    Option Source :=
  match sources.find? (fun s => s.id == currentSourceId) with
  | some s => some s
  | none => sources.head?

/-- `seekTo` (lines 222-229): clamp the target to
`[0, duration || seconds + 0.01]`, set the position, then `play()` with the
rejection swallowed by `.catch(() => {})`. -/
def seekTo (v : VideoState) (seconds : ℚ) : VideoState :=
  { v with
    time := clamp seconds 0 (jsOrDur v.duration (seconds + 1/100)),
    paused := if v.playFails then v.paused else false }

/-- `seekTo` lifted to the whole player state: it touches the video element
only. -/
def psSeekTo (s : PState) (seconds : ℚ) : PState :=
  { s with video := seekTo s.video seconds }

/-- `switchSource` (lines 241-254): unconditionally set the current source id,
clear `ready`, (via `setTimeout(…, 0)`) set the element position to `startAt`
and `play()`, and emit `source.switch`.  Changing `src` unloads the metadata,
so the duration becomes unknown.  Note: no catalogue membership check and no
touch of `activeHotspot`. -/
def switchSource (s : PState) (sourceId : String) (startAt : ℚ) : PState :=
  { s with
    currentSourceId := sourceId,
    ready := false,
    video := { s.video with
      time := startAt,
      duration := none,
      paused := if s.video.playFails then s.video.paused else false },
    events := s.events ++ [Event.sourceSwitch sourceId startAt] }

/-- `performAction` (lines 231-239): a seek only on
`type === "seek" && typeof action.start === "number"`, a source switch only
on `type === "switchSource" && action.sourceId` truthy, otherwise (including
`action == null`) nothing at all. -/
def performAction (s : PState) (action : Option Action) : PState :=
  match action with
  | none => s
  | some a =>
      if a.type == "seek" && a.start.isSome then
        psSeekTo s (a.start.getD 0)
      else if a.type == "switchSource" && jsTruthyStr a.sourceId then
        switchSource s (a.sourceId.getD "") (a.startAt.getD 0)
      else s

/-- The chained-boundary-watch effect (lines 135-149): while a hotspot is
recorded as active and its action carries a truthy `end`, once the observed
time exceeds `end + 0.05` clear the watch and seek to the `onEnd` of the hotspot.
(The source would pass `undefined` to `seekTo` when `onEnd` is absent,
assigning `NaN` to `currentTime`; that degenerate branch only clears the
watch here.) -/
def chainedWatchEffect (s : PState) : PState :=
  match s.activeHotspot with
  | none => s
  | some h =>
      match h.action with
      | none => s
      | some a =>
          match a.«end» with
          | none => s
          | some e =>
              if e ≠ 0 ∧ s.currentTime > e + 1/20 then
                match h.onEnd with
                | some tgt => psSeekTo { s with activeHotspot := none } tgt
                | none => { s with activeHotspot := none }
              else s

/-- The exit-policy block of the segment entry/exit effect (lines 169-214):
look up the previously tracked segment; if it required a choice, loops on no
choice and none was made, increment its loop counter and emit `segment.loop`;
then either dispatch the default action and emit `segment.autoselect`
(counter reached `maxLoops` and a default action exists) or reseek to the
segment start. -/
def exitPolicy (cfg : List Segment) (s : PState) (prevId : String) : PState :=
  match cfg.find? (fun x => x.id == prevId) with
  | none => s
  | some seg =>
      if seg.requireChoice && seg.loopOnNoChoice && !s.userChoseInSegment then
        let loops := lookupLoop s.loopCountBySeg seg.id + 1
        let s2 := { s with
          loopCountBySeg := setLoop s.loopCountBySeg seg.id loops,
          events := s.events ++ [Event.segmentLoop seg.id loops] }
        let reachedMax :=
          match seg.maxLoops with
          | some m => decide (loops ≥ m)
          | none => false
        if reachedMax && seg.defaultAction.isSome then
          let s3 := performAction s2 seg.defaultAction
          { s3 with
            events := s3.events ++ [Event.segmentAutoselect seg.id] }
        else
          psSeekTo s2 seg.start
      else s

/-- The segment entry/exit effect (lines 152-220).  Entering a segment whose
id differs from the tracked one resets the choice state and emits
`segment.enter`.  Leaving all segments with a tracked id runs the exit
policy (lines 169-214, `exitPolicy` above), then clears the tracked id and
hides the overlays. -/
def segmentEffect (cfg : List Segment) (s : PState) : PState :=
  match activeSegmentOf cfg s.currentTime with
  | some seg =>
      if s.activeSegmentId ≠ some seg.id then
        { s with
          activeSegmentId := some seg.id,
          userChoseInSegment := false,
          showOverlays := true,
          events := s.events ++ [Event.segmentEnter seg.id] }
      else s
  | none =>
      match s.activeSegmentId with
      | none => s
      | some prevId =>
          { exitPolicy cfg s prevId with
            activeSegmentId := none, showOverlays := false }

/-- The raw `timeupdate` notification (lines 121-133): the element has
advanced (or been moved) to `newTime` and the listener stores it in
`currentTime`. -/
def preTick (s : PState) (newTime : ℚ) : PState :=
  { s with
    currentTime := newTime,
    video := { s.video with time := newTime } }

/-- One `timeupdate` step: the time is stored and the two effects run in
declaration order. -/
def tick (cfg : List Segment) (s : PState) (newTime : ℚ) : PState :=
  segmentEffect cfg (chainedWatchEffect (preTick s newTime))

/-- `onHotspotClick` (lines 256-268): mark the choice, hide overlays, emit
`hotspot.click`, dispatch the action of the hotspot, record the hotspot as the
active (chained-watch) one. -/
def onHotspotClick (s : PState) (h : Hotspot) (seg : Option Segment) :
    PState :=
  let s1 := { s with
    userChoseInSegment := true,
    showOverlays := false,
    events := s.events ++ [Event.hotspotClick h.id (seg.map Segment.id)] }
  let s2 := performAction s1 h.action
  { s2 with activeHotspot := some h }

/-- Player construction (lines 92-101): the initial `useState` values.  The
component receives `sources` and `config` but the initial state reads
neither — there is no validation pass of any kind. -/
def playerInit (_sources : List Source) (initialSourceId : String)
    (_cfg : List Segment) : PState :=
  { video := { time := 0, duration := none, paused := true, playFails := false },
    currentSourceId := initialSourceId,
    ready := false,
    currentTime := 0,
    activeSegmentId := none,
    activeHotspot := none,
    loopCountBySeg := [],
    userChoseInSegment := false,
    showOverlays := true,
    events := [] }

/-! ### Example configuration data (from `src/src/App.jsx` and spec §8) -/

/-- The catalogue of `App.jsx`: a single source with id `main`. -/
def demoSources : List Source := [{ id := "main", src := "car.mp4" }]

/-- The §8 scenario segment: `{id:"c1", start:10, end:13, requireChoice:true,
loopOnNoChoice:true, maxLoops:2, defaultAction:{type:seek,to:14}}`, with the
default action written in the `to` shape documented at lines 46-51 and used
by every `defaultAction` of `App.jsx`. -/
def c1Seg : Segment :=
  { id := "c1", start := 10, «end» := 13, requireChoice := true,
    loopOnNoChoice := true, maxLoops := some 2,
    defaultAction := some { type := "seek", «to» := some 14 } }

/-- The first hotspot of segment `choice-1` in `App.jsx`:
`action = { type: "seek", start: 14, end: 16 }`, `onEnd = 67`. -/
def toAHotspot : Hotspot :=
  { id := "toA",
    action := some { type := "seek", start := some 14, «end» := some 16 },
    onEnd := some 67 }

/-- Segment `choice-1` of `App.jsx` (maxLoops commented out there). -/
def choice1Seg : Segment :=
  { id := "choice-1", start := 10, «end» := 13, requireChoice := true,
    loopOnNoChoice := true,
    defaultAction := some { type := "seek", «to» := some 14 },
    hotspots := [toAHotspot] }

/-- A state inside segment `c1` at `t = 12` with one prior loop recorded. -/
def c2State : PState :=
  { video := { time := 12 }, currentSourceId := "main", currentTime := 12,
    activeSegmentId := some "c1", loopCountBySeg := [("c1", 1)] }

/-- Choice-required segment `A` over `[0, 10]`. -/
def segA : Segment :=
  { id := "A", start := 0, «end» := 10, requireChoice := true,
    loopOnNoChoice := true }

/-- Plain segment `B` over `[10, 20]`, adjacent to `A`. -/
def segB : Segment := { id := "B", start := 10, «end» := 20 }

/-- A state inside segment `A` at `t = 5`, no choice made. -/
def c3State : PState :=
  { video := { time := 5 }, currentSourceId := "main", currentTime := 5,
    activeSegmentId := some "A" }

/-- A state inside segment `choice-1` at `t = 10`, before any choice. -/
def pendingChoiceState : PState :=
  { video := { time := 10 }, currentSourceId := "main", currentTime := 10,
    activeSegmentId := some "choice-1" }

/-- A state with the `toA` chained boundary watch pending after its seek
(the user chose, playback is at `t = 15` inside the range `14..16`). -/
def pendingState : PState :=
  { video := { time := 15 }, currentSourceId := "main", currentTime := 15,
    activeHotspot := some toAHotspot, userChoseInSegment := true }

/-- An invalid configuration: duplicate segment ids, a segment with
`start >= end`, duplicate hotspot ids and a dangling `sourceId` reference
(no source `ghost` exists in `demoSources`). -/
def badCfg : List Segment :=
  [ { id := "dup", start := 5, «end» := 3 },
    { id := "dup", start := 0, «end» := 1,
      hotspots := [
        { id := "h1",
          action := some { type := "switchSource", sourceId := some "ghost" } },
        { id := "h1" } ] } ]

/-! ### Helper lemmas -/

/-- Spec-level reading of the resolver predicate of lines 113-115:
the closed interval `[start, end]` contains `t`. -/
def containsTime (seg : Segment) (t : ℚ) : Prop :=
  seg.start ≤ t ∧ t ≤ seg.«end»

instance (seg : Segment) (t : ℚ) : Decidable (containsTime seg t) := by
  unfold containsTime
  infer_instance

theorem lookupLoop_setLoop (m : List (String × ℕ)) (id : String) (n : ℕ)
    (sid : String) :
    lookupLoop (setLoop m id n) sid = if sid = id then n else lookupLoop m sid := by
  induction m with
  | nil =>
      by_cases h : sid = id
      · subst h
        simp [setLoop, lookupLoop, List.find?]
      · have h2 : (id == sid) = false := by
          simp only [beq_eq_false_iff_ne, ne_eq]
          exact fun hh => h hh.symm
        simp [setLoop, lookupLoop, List.find?, h2, h]
  | cons hd tl ih =>
      obtain ⟨k, v⟩ := hd
      by_cases hk : k = id
      · subst hk
        by_cases hs : sid = k
        · subst hs
          simp [setLoop, lookupLoop, List.find?]
        · have h2 : (k == sid) = false := by
            simp only [beq_eq_false_iff_ne, ne_eq]
            exact fun hh => hs hh.symm
          simp [setLoop, lookupLoop, List.find?, h2, hs]
      · have hkid : (k == id) = false := by
          simp only [beq_eq_false_iff_ne, ne_eq]
          exact hk
        have h2 : (k == sid) = false ∨ sid = k := by
          by_cases hs : sid = k
          · exact Or.inr hs
          · exact Or.inl (by
              simp only [beq_eq_false_iff_ne, ne_eq]
              exact fun hh => hs hh.symm)
        have hstep : setLoop ((k, v) :: tl) id n = (k, v) :: setLoop tl id n := by
          simp [setLoop, hkid]
        rcases h2 with h2 | h2
        · have l1 : lookupLoop ((k, v) :: setLoop tl id n) sid
              = lookupLoop (setLoop tl id n) sid := by
            simp [lookupLoop, List.find?, h2]
          have l2 : lookupLoop ((k, v) :: tl) sid = lookupLoop tl sid := by
            simp [lookupLoop, List.find?, h2]
          rw [hstep, l1, l2, ih]
        · subst h2
          have hsid : sid ≠ id := fun hh => hk (hh ▸ rfl)
          have hsk : (sid == sid) = true := by simp
          rw [hstep]
          simp [lookupLoop, List.find?, hsk, hsid]

theorem performAction_preserves (s : PState) (act : Option Action) :
    (performAction s act).loopCountBySeg = s.loopCountBySeg ∧
    (performAction s act).activeHotspot = s.activeHotspot ∧
    (performAction s act).activeSegmentId = s.activeSegmentId ∧
    (performAction s act).userChoseInSegment = s.userChoseInSegment ∧
    (performAction s act).currentTime = s.currentTime := by
  rcases act with _ | a
  · simp [performAction]
  · simp only [performAction]
    split
    · simp [psSeekTo, seekTo]
    · split
      · simp [switchSource]
      · simp

theorem chainedWatchEffect_preserves (s : PState) :
    (chainedWatchEffect s).events = s.events ∧
    (chainedWatchEffect s).loopCountBySeg = s.loopCountBySeg ∧
    (chainedWatchEffect s).activeSegmentId = s.activeSegmentId ∧
    (chainedWatchEffect s).currentTime = s.currentTime ∧
    (chainedWatchEffect s).userChoseInSegment = s.userChoseInSegment ∧
    (chainedWatchEffect s).video.duration = s.video.duration := by
  unfold chainedWatchEffect
  split
  · simp
  · split
    · simp
    · split
      · simp
      · split
        · split <;> simp [psSeekTo, seekTo]
        · simp

theorem chainedWatchEffect_of_none (s : PState) (h : s.activeHotspot = none) :
    chainedWatchEffect s = s := by
  simp only [chainedWatchEffect, h]

theorem chainedWatchEffect_not_yet (s : PState) (h : Hotspot) (a : Action)
    (e : ℚ) (hh : s.activeHotspot = some h) (ha : h.action = some a)
    (he : a.«end» = some e) (ht : ¬ s.currentTime > e + 1/20) :
    chainedWatchEffect s = s := by
  simp only [chainedWatchEffect, hh, ha, he]
  rw [if_neg (fun hc => ht hc.2)]

theorem chainedWatchEffect_fires (s : PState) (h : Hotspot) (a : Action)
    (e tgt : ℚ) (hh : s.activeHotspot = some h) (ha : h.action = some a)
    (he : a.«end» = some e) (he0 : e ≠ 0) (hoe : h.onEnd = some tgt)
    (ht : s.currentTime > e + 1/20) :
    chainedWatchEffect s = psSeekTo { s with activeHotspot := none } tgt := by
  simp only [chainedWatchEffect, hh, ha, he, hoe]
  rw [if_pos ⟨he0, ht⟩]

theorem exitPolicy_activeHotspot (cfg : List Segment) (s : PState)
    (prevId : String) :
    (exitPolicy cfg s prevId).activeHotspot = s.activeHotspot := by
  simp only [exitPolicy]
  split
  · rfl
  · split
    · split
      · simp [(performAction_preserves _ _).2.1]
      · simp [psSeekTo]
    · rfl

theorem exitPolicy_chosen (cfg : List Segment) (s : PState) (prevId : String)
    (hch : s.userChoseInSegment = true) :
    exitPolicy cfg s prevId = s := by
  simp only [exitPolicy, hch]
  split
  · rfl
  · simp

theorem exitPolicy_loop_mono (cfg : List Segment) (s : PState)
    (prevId sid : String) :
    lookupLoop s.loopCountBySeg sid
      ≤ lookupLoop (exitPolicy cfg s prevId).loopCountBySeg sid := by
  simp only [exitPolicy]
  split
  · exact le_refl _
  · rename_i seg _
    split
    · split
      · rw [show ∀ u : PState, ({ u with
            events := u.events ++ [Event.segmentAutoselect seg.id] } : PState).loopCountBySeg
            = u.loopCountBySeg from fun u => rfl]
        rw [(performAction_preserves _ _).1]
        simp only [lookupLoop_setLoop]
        by_cases hs : sid = seg.id
        · subst hs
          rw [if_pos rfl]
          omega
        · simp [hs]
      · simp only [psSeekTo]
        simp only [lookupLoop_setLoop]
        by_cases hs : sid = seg.id
        · subst hs
          rw [if_pos rfl]
          omega
        · simp [hs]
    · exact le_refl _

theorem segmentEffect_activeHotspot (cfg : List Segment) (s : PState) :
    (segmentEffect cfg s).activeHotspot = s.activeHotspot := by
  simp only [segmentEffect]
  split
  · split
    · rfl
    · rfl
  · split
    · rfl
    · exact exitPolicy_activeHotspot cfg s _

theorem segmentEffect_of_idle (cfg : List Segment) (s : PState)
    (hres : activeSegmentOf cfg s.currentTime = none)
    (hid : s.activeSegmentId = none) :
    segmentEffect cfg s = s := by
  simp only [segmentEffect, hres, hid]

theorem segmentEffect_exit_chosen (cfg : List Segment) (s : PState)
    (sid : String) (hres : activeSegmentOf cfg s.currentTime = none)
    (hid : s.activeSegmentId = some sid)
    (hch : s.userChoseInSegment = true) :
    segmentEffect cfg s
      = { s with activeSegmentId := none, showOverlays := false } := by
  simp only [segmentEffect, hres, hid]
  rw [exitPolicy_chosen cfg s sid hch]

theorem segmentEffect_loop_mono (cfg : List Segment) (s : PState)
    (sid : String) :
    lookupLoop s.loopCountBySeg sid
      ≤ lookupLoop (segmentEffect cfg s).loopCountBySeg sid := by
  simp only [segmentEffect]
  split
  · split
    · exact le_refl _
    · exact le_refl _
  · split
    · exact le_refl _
    · exact exitPolicy_loop_mono cfg s _ sid

/-! ### Claim theorems -/

theorem activeSegmentOf_cons (hd : Segment) (tl : List Segment) (t : ℚ) :
    activeSegmentOf (hd :: tl) t
      = if containsTime hd t then some hd else activeSegmentOf tl t := by
  by_cases hc : containsTime hd t
  · have hp : (decide (hd.start ≤ t) && decide (t ≤ hd.«end»)) = true := by
      obtain ⟨h1, h2⟩ := hc
      simp [h1, h2]
    simp [activeSegmentOf, List.find?, hp, hc]
  · have hp : (decide (hd.start ≤ t) && decide (t ≤ hd.«end»)) = false := by
      by_contra hb
      apply hc
      have hb2 : (decide (hd.start ≤ t) && decide (t ≤ hd.«end»)) = true := by
        revert hb
        cases decide (hd.start ≤ t) && decide (t ≤ hd.«end») <;> simp
      simp only [Bool.and_eq_true, decide_eq_true_eq] at hb2
      exact ⟨hb2.1, hb2.2⟩
    simp [activeSegmentOf, List.find?, hp, hc]

theorem activeSegmentOf_eq_none_iff (segments : List Segment) (t : ℚ) :
    activeSegmentOf segments t = none ↔
      ∀ seg ∈ segments, ¬ containsTime seg t := by
  induction segments with
  | nil => simp [activeSegmentOf]
  | cons hd tl ih =>
      rw [activeSegmentOf_cons]
      by_cases hc : containsTime hd t
      · simp [hc]
      · simp [hc, ih]

theorem activeSegmentOf_first (segments : List Segment) (t : ℚ) (S : Segment)
    (h : activeSegmentOf segments t = some S) :
    containsTime S t ∧
      ∃ pre post, segments = pre ++ S :: post ∧
        ∀ seg ∈ pre, ¬ containsTime seg t := by
  induction segments with
  | nil => simp [activeSegmentOf] at h
  | cons hd tl ih =>
      rw [activeSegmentOf_cons] at h
      by_cases hc : containsTime hd t
      · rw [if_pos hc] at h
        obtain rfl : hd = S := by injection h
        exact ⟨hc, [], tl, rfl, by simp⟩
      · rw [if_neg hc] at h
        obtain ⟨hcont, pre, post, heq, hall⟩ := ih h
        refine ⟨hcont, hd :: pre, post, by rw [heq]; rfl, ?_⟩
        intro seg hseg
        rcases List.mem_cons.mp hseg with rfl | hmem
        · exact hc
        · exact hall seg hmem

/-- C5 (confirmed): the resolver is the pure function `activeSegmentOf`;
on every input it deterministically returns the first segment of the
configured list whose closed interval `[start, end]` contains `t`, and
returns none exactly when no interval contains `t`. -/
theorem resolver_first_match_deterministic (segments : List Segment) (t : ℚ) :
    (activeSegmentOf segments t = activeSegmentOf segments t) ∧
    (activeSegmentOf segments t = none ↔
      ∀ seg ∈ segments, ¬ containsTime seg t) ∧
    (∀ S, activeSegmentOf segments t = some S →
      containsTime S t ∧
        ∃ pre post, segments = pre ++ S :: post ∧
          ∀ seg ∈ pre, ¬ containsTime seg t) := by
  exact ⟨rfl, activeSegmentOf_eq_none_iff segments t,
    fun S h => activeSegmentOf_first segments t S h⟩

/-- C5 witness: on the overlapping two-segment list of the claim, with both
intervals containing `t = 11`, the resolver returns the earlier-declared
segment, whose interval contains the time. -/
theorem resolver_first_match_witness :
    containsTime c1Seg 11 ∧
      ∃ pre post, [c1Seg, choice1Seg] = pre ++ c1Seg :: post ∧
        ∀ seg ∈ pre, ¬ containsTime seg 11 :=
  (resolver_first_match_deterministic [c1Seg, choice1Seg] 11).2.2 c1Seg
    (by norm_num [activeSegmentOf, List.find?, c1Seg, choice1Seg])

theorem performAction_seek (s : PState) (a : Action) (ts : ℚ)
    (hty : a.type = "seek") (hst : a.start = some ts) :
    performAction s (some a) = psSeekTo s ts := by
  simp [performAction, hty, hst]

theorem exitPolicy_loops (cfg : List Segment) (s : PState) (prevId : String)
    (seg : Segment) (hfind : cfg.find? (fun x => x.id == prevId) = some seg)
    (hrc : seg.requireChoice = true) (hlc : seg.loopOnNoChoice = true)
    (hch : s.userChoseInSegment = false) (hml : seg.maxLoops = none) :
    exitPolicy cfg s prevId
      = psSeekTo { s with
          loopCountBySeg :=
            setLoop s.loopCountBySeg seg.id (lookupLoop s.loopCountBySeg seg.id + 1),
          events := s.events
            ++ [Event.segmentLoop seg.id (lookupLoop s.loopCountBySeg seg.id + 1)] }
        seg.start := by
  simp [exitPolicy, hfind, hrc, hlc, hch, hml]

theorem segmentEffect_exit (cfg : List Segment) (s : PState) (sid : String)
    (hres : activeSegmentOf cfg s.currentTime = none)
    (hid : s.activeSegmentId = some sid) :
    segmentEffect cfg s
      = { exitPolicy cfg s sid with
          activeSegmentId := none, showOverlays := false } := by
  simp only [segmentEffect, hres, hid]

theorem segmentEffect_exit_inert (cfg : List Segment) (s : PState)
    (hres : activeSegmentOf cfg s.currentTime = none)
    (hch : s.userChoseInSegment = true) :
    (segmentEffect cfg s).activeSegmentId = none ∧
    (segmentEffect cfg s).events = s.events ∧
    (segmentEffect cfg s).loopCountBySeg = s.loopCountBySeg ∧
    (segmentEffect cfg s).video = s.video ∧
    (segmentEffect cfg s).activeHotspot = s.activeHotspot ∧
    (segmentEffect cfg s).userChoseInSegment = s.userChoseInSegment ∧
    (segmentEffect cfg s).currentTime = s.currentTime := by
  rcases hid : s.activeSegmentId with _ | sid
  · rw [segmentEffect_of_idle cfg s hres hid]
    exact ⟨hid, rfl, rfl, rfl, rfl, rfl, rfl⟩
  · rw [segmentEffect_exit_chosen cfg s sid hres hid hch]
    exact ⟨rfl, rfl, rfl, rfl, rfl, rfl, rfl⟩

/-- C10 (confirmed): `performAction` is a total no-op — no seek, no source
switch, no state change, no event — on a null action, on a seek action
without a numeric `start` field (in particular the documented
`{type:"seek", to:n}` shape used by the example default actions), and on a
switchSource action without a `sourceId`. -/
theorem performAction_noop_cases (s : PState) (a : Action) :
    (performAction s none = s) ∧
    (a.type = "seek" → a.start = none → performAction s (some a) = s) ∧
    (a.type = "switchSource" → a.sourceId = none → performAction s (some a) = s) ∧
    (∀ n : ℚ, performAction s (some { type := "seek", «to» := some n }) = s) := by
  refine ⟨rfl, ?_, ?_, ?_⟩
  · intro ht hs
    simp [performAction, ht, hs]
  · intro ht hs
    simp [performAction, ht, hs, jsTruthyStr]
  · intro n
    simp [performAction, jsTruthyStr]

/-- C10 witness: on the freshly constructed player, the documented
`{type:"seek", to:14}` default-action shape and a `switchSource` action
without a sourceId both leave the state untouched. -/
theorem performAction_noop_cases_witness :
    performAction (playerInit demoSources "main" [c1Seg])
        (some { type := "seek", «to» := some 14 })
      = playerInit demoSources "main" [c1Seg] ∧
    performAction (playerInit demoSources "main" [c1Seg])
        (some { type := "switchSource" })
      = playerInit demoSources "main" [c1Seg] :=
  ⟨(performAction_noop_cases (playerInit demoSources "main" [c1Seg])
      { type := "switchSource" }).2.2.2 14,
   (performAction_noop_cases (playerInit demoSources "main" [c1Seg])
      { type := "switchSource" }).2.2.1 rfl rfl⟩

/-- C9 (confirmed): a plain seek clamps the target to `[0, duration]` when
the adapter reports a (positive) duration, clamps only below at `0` when the
duration is unknown, sets the position to the clamped value, and resumes
playback, treating a play failure as a silent no-op: the position is the
same whether play succeeds or fails, and on failure the paused flag is
simply left as it was. -/
theorem seekTo_clamps_and_resumes (v : VideoState) (target d : ℚ) :
    (v.duration = some d → 0 < d →
      (seekTo v target).time = max 0 (min d target)) ∧
    (v.duration = none → (seekTo v target).time = max 0 target) ∧
    (v.playFails = false → (seekTo v target).paused = false) ∧
    (v.playFails = true →
      (seekTo v target).paused = v.paused ∧
      (seekTo v target).time = (seekTo { v with playFails := false } target).time) := by
  refine ⟨?_, ?_, ?_, ?_⟩
  · intro hd hpos
    simp [seekTo, jsOrDur, hd, clamp, hpos.ne']
  · intro hd
    simp only [seekTo, jsOrDur, hd, clamp]
    rw [min_eq_right (by linarith : target ≤ target + 1/100)]
  · intro hp
    simp [seekTo, hp]
  · intro hp
    simp [seekTo, hp]

/-- C9 witness: seeking to 14 with a reported duration of 20 puts the
position at `max 0 (min 20 14)`; with an unknown duration at `max 0 14`. -/
theorem seekTo_clamps_and_resumes_witness :
    (seekTo { time := 0, duration := some 20 } 14).time = max 0 (min 20 14) ∧
    (seekTo { time := 0 } 14).time = max 0 14 :=
  ⟨(seekTo_clamps_and_resumes { time := 0, duration := some 20 } 14 20).1 rfl
      (by norm_num),
   (seekTo_clamps_and_resumes { time := 0 } 14 20).2.1 rfl⟩

/-- C1 (counterexample): dispatching a `switchSource` action whose sourceId
`ghost` is not in the configured catalogue does not fail and does not leave
`currentSourceId` unchanged: `currentSourceId` becomes `ghost` and the only
emitted event is the ordinary `source.switch` — no error event exists. -/
theorem switchSource_unknown_counterexample :
    "ghost" ∉ demoSources.map Source.id ∧
    (playerInit demoSources "main" [c1Seg]).currentSourceId = "main" ∧
    (performAction (playerInit demoSources "main" [c1Seg])
        (some { type := "switchSource", sourceId := some "ghost" })).currentSourceId
      = "ghost" ∧
    (performAction (playerInit demoSources "main" [c1Seg])
        (some { type := "switchSource", sourceId := some "ghost" })).events
      = [Event.sourceSwitch "ghost" 0] := by
  refine ⟨by decide, rfl, rfl, rfl⟩

/-- C1 (amended, corrected): `switchSource` performs no catalogue check at
all: dispatching `SwitchSource` with any non-empty sourceId — known or not —
sets `currentSourceId` to it, emits the ordinary `source.switch` event (no
error event), and when the id is unknown the rendered source falls back to
the first catalogue entry while playback simply continues there. -/
theorem switchSource_unknown_amended (s : PState) (a : Action) (srcId : String)
    (hty : a.type = "switchSource") (hsid : a.sourceId = some srcId)
    (hne : srcId ≠ "") :
    performAction s (some a) = switchSource s srcId (a.startAt.getD 0) ∧
    (performAction s (some a)).currentSourceId = srcId ∧
    (performAction s (some a)).events
      = s.events ++ [Event.sourceSwitch srcId (a.startAt.getD 0)] ∧
    (∀ sources : List Source, sources.find? (fun x => x.id == srcId) = none →
      currentSource sources (performAction s (some a)).currentSourceId
        = sources.head?) := by
  have hbne : (srcId == "") = false := by
    simp only [beq_eq_false_iff_ne, ne_eq]
    exact hne
  have h1 : performAction s (some a) = switchSource s srcId (a.startAt.getD 0) := by
    simp [performAction, hty, hsid, jsTruthyStr, hbne]
  refine ⟨h1, ?_, ?_, ?_⟩
  · rw [h1]
    rfl
  · rw [h1]
    rfl
  · intro sources hfind
    rw [h1]
    simp [currentSource, hfind, switchSource]

/-- C1 witness: dispatching a switch to the unknown id `ghost` from the
fresh player equals the unconditional `switchSource` call. -/
theorem switchSource_unknown_amended_witness :
    (performAction (playerInit demoSources "main" [c1Seg])
        (some { type := "switchSource", sourceId := some "ghost" })).currentSourceId
      = "ghost" :=
  (switchSource_unknown_amended (playerInit demoSources "main" [c1Seg])
    { type := "switchSource", sourceId := some "ghost" } "ghost" rfl rfl
    (by decide)).2.1

/-- C6 (counterexample): constructing the player with a configuration that
has duplicate segment ids, a segment with `start >= end`, duplicate hotspot
ids and a dangling `sourceId` reference succeeds exactly like construction
with the empty configuration: nothing is validated, nothing fails, no event
or error of any kind is produced. -/
theorem config_validation_counterexample :
    ¬ (badCfg.map Segment.id).Nodup ∧
    playerInit demoSources "main" badCfg = playerInit demoSources "main" [] ∧
    (playerInit demoSources "main" badCfg).events = [] := by
  refine ⟨by decide, rfl, rfl⟩

/-- C6 (amended, corrected): player construction performs no configuration
validation whatsoever: it is total and its resulting state is independent of
the source catalogue and of the segment configuration, so invalid
configurations are accepted silently (and dangling sourceIds are not
rejected at dispatch time either, see the C1 theorems). -/
theorem config_validation_amended (sources sources2 : List Source)
    (init : String) (cfg cfg2 : List Segment) :
    playerInit sources init cfg = playerInit sources2 init cfg2 := rfl

/-- C8 (confirmed): per-segment loop counters are monotonically
non-decreasing across the session: every operation of the player — a clock
tick, a hotspot activation, an action dispatch, a source switch, a plain
seek — leaves every counter greater than or equal to its previous value;
none resets it. -/
theorem loop_counters_monotone (cfg : List Segment) (s : PState) (t : ℚ)
    (h : Hotspot) (segO : Option Segment) (act : Option Action)
    (srcId : String) (startAt : ℚ) (sid : String) :
    lookupLoop s.loopCountBySeg sid
      ≤ lookupLoop (tick cfg s t).loopCountBySeg sid ∧
    lookupLoop s.loopCountBySeg sid
      ≤ lookupLoop (onHotspotClick s h segO).loopCountBySeg sid ∧
    lookupLoop s.loopCountBySeg sid
      ≤ lookupLoop (performAction s act).loopCountBySeg sid ∧
    lookupLoop s.loopCountBySeg sid
      ≤ lookupLoop (switchSource s srcId startAt).loopCountBySeg sid ∧
    lookupLoop s.loopCountBySeg sid
      ≤ lookupLoop (psSeekTo s startAt).loopCountBySeg sid := by
  refine ⟨?_, ?_, ?_, ?_, ?_⟩
  · unfold tick
    have h1 : (chainedWatchEffect (preTick s t)).loopCountBySeg
        = s.loopCountBySeg :=
      (chainedWatchEffect_preserves _).2.1
    have h2 := segmentEffect_loop_mono cfg (chainedWatchEffect (preTick s t)) sid
    rw [h1] at h2
    exact h2
  · unfold onHotspotClick
    rw [show ∀ u : PState, ({ u with activeHotspot := some h } : PState).loopCountBySeg
        = u.loopCountBySeg from fun u => rfl]
    rw [(performAction_preserves _ _).1]
  · rw [(performAction_preserves _ _).1]
  · exact le_refl _
  · exact le_refl _

/-- C2 (code-bug evaluation): the §8 scenario segment at the exit where the
loop counter reaches `maxLoops = 2` with the documented default action
`{type:"seek", to:14}`: the code emits `segment.loop` and
`segment.autoselect` and does not reseek to the segment start, but
`performAction` ignores the `to` field (it only reads a numeric `start`
field), so no seek is performed at all: playback continues at the exit
position `20` instead of the default-action target `14`. -/
theorem default_action_to_shape_eval :
    (tick [c1Seg] c2State 20).events
      = [Event.segmentLoop "c1" 2, Event.segmentAutoselect "c1"] ∧
    lookupLoop (tick [c1Seg] c2State 20).loopCountBySeg "c1" = 2 ∧
    (tick [c1Seg] c2State 20).video.time = 20 ∧
    (tick [c1Seg] c2State 20).video.time ≠ 14 := by
  unfold tick preTick chainedWatchEffect segmentEffect exitPolicy
    activeSegmentOf c2State c1Seg
  norm_num [performAction, lookupLoop, setLoop, jsTruthyStr, List.find?]

/-- C3 (counterexample): with choice-required segment `A` tracked and no
choice made, a tick that resolves directly to the different segment `B`
(time 15 lies in `B` only) evaluates no exit policy for `A`: no
`segment.loop` or `segment.autoselect` is emitted, the loop counters stay
empty, and no reseek to `A.start` happens — the player just enters `B`. -/
theorem exit_policy_skipped_on_direct_transition :
    segA.requireChoice = true ∧ segA.loopOnNoChoice = true ∧
    c3State.activeSegmentId = some "A" ∧
    c3State.userChoseInSegment = false ∧
    (tick [segA, segB] c3State 15).events = [Event.segmentEnter "B"] ∧
    (tick [segA, segB] c3State 15).loopCountBySeg = [] ∧
    (tick [segA, segB] c3State 15).video.time = 15 ∧
    (tick [segA, segB] c3State 15).activeSegmentId = some "B" := by
  refine ⟨rfl, rfl, rfl, rfl, ?_⟩
  unfold tick preTick chainedWatchEffect segmentEffect activeSegmentOf
    c3State segA segB
  norm_num [List.find?, (by decide : ¬ (("A" : String) = "B"))]

/-- C3 (amended, corrected): the exit policy runs exactly once per exit
transition to no-segment: on the first tick where the resolver returns none
while a choice-required segment is tracked and unchosen, exactly one
`segment.loop` is emitted and the tracked id is cleared; a following
no-segment tick runs no policy — events and loop counters are unchanged.
(A transition straight into a different segment skips the policy entirely,
see the counterexample.) -/
theorem exit_policy_once_per_exit (cfg : List Segment) (s : PState)
    (sid : String) (seg : Segment) (t1 t2 : ℚ)
    (hA : s.activeSegmentId = some sid)
    (hH : s.activeHotspot = none)
    (hfind : cfg.find? (fun x => x.id == sid) = some seg)
    (hrc : seg.requireChoice = true) (hlc : seg.loopOnNoChoice = true)
    (hch : s.userChoseInSegment = false) (hml : seg.maxLoops = none)
    (h1 : activeSegmentOf cfg t1 = none)
    (h2 : activeSegmentOf cfg t2 = none) :
    (tick cfg s t1).events
      = s.events
        ++ [Event.segmentLoop seg.id (lookupLoop s.loopCountBySeg seg.id + 1)] ∧
    (tick cfg s t1).activeSegmentId = none ∧
    (tick cfg (tick cfg s t1) t2).events = (tick cfg s t1).events ∧
    (tick cfg (tick cfg s t1) t2).loopCountBySeg
      = (tick cfg s t1).loopCountBySeg := by
  have hcw : chainedWatchEffect (preTick s t1) = preTick s t1 :=
    chainedWatchEffect_of_none _ hH
  have hse : segmentEffect cfg (preTick s t1)
      = { exitPolicy cfg (preTick s t1) sid with
          activeSegmentId := none, showOverlays := false } :=
    segmentEffect_exit cfg (preTick s t1) sid h1 hA
  have hep : exitPolicy cfg (preTick s t1) sid
      = psSeekTo { preTick s t1 with
          loopCountBySeg :=
            setLoop s.loopCountBySeg seg.id (lookupLoop s.loopCountBySeg seg.id + 1),
          events := s.events
            ++ [Event.segmentLoop seg.id (lookupLoop s.loopCountBySeg seg.id + 1)] }
        seg.start :=
    exitPolicy_loops cfg (preTick s t1) sid seg hfind hrc hlc hch hml
  have ht1 : tick cfg s t1
      = { psSeekTo { preTick s t1 with
            loopCountBySeg :=
              setLoop s.loopCountBySeg seg.id (lookupLoop s.loopCountBySeg seg.id + 1),
            events := s.events
              ++ [Event.segmentLoop seg.id (lookupLoop s.loopCountBySeg seg.id + 1)] }
          seg.start with
          activeSegmentId := none, showOverlays := false } := by
    unfold tick
    rw [hcw, hse, hep]
  have hA2 : (tick cfg s t1).activeSegmentId = none := by rw [ht1]
  have hH2 : (tick cfg s t1).activeHotspot = none := by
    rw [ht1]
    exact hH
  have hcw2 : chainedWatchEffect (preTick (tick cfg s t1) t2)
      = preTick (tick cfg s t1) t2 :=
    chainedWatchEffect_of_none _ hH2
  have hse2 : segmentEffect cfg (preTick (tick cfg s t1) t2)
      = preTick (tick cfg s t1) t2 :=
    segmentEffect_of_idle cfg _ h2 hA2
  refine ⟨?_, hA2, ?_, ?_⟩
  · rw [ht1]
    rfl
  · show (segmentEffect cfg (chainedWatchEffect (preTick (tick cfg s t1) t2))).events
      = (tick cfg s t1).events
    rw [hcw2, hse2]
    rfl
  · show (segmentEffect cfg (chainedWatchEffect (preTick (tick cfg s t1) t2))).loopCountBySeg
      = (tick cfg s t1).loopCountBySeg
    rw [hcw2, hse2]
    rfl

/-- C3 witness: concrete run of the exit-once property on segment `A`: the
first no-segment tick (t=15) emits exactly one loop event; the second
(t=16) changes neither events nor counters. -/
theorem exit_policy_once_per_exit_witness :
    (tick [segA] c3State 15).events
      = c3State.events
        ++ [Event.segmentLoop segA.id (lookupLoop c3State.loopCountBySeg segA.id + 1)] ∧
    (tick [segA] c3State 15).activeSegmentId = none ∧
    (tick [segA] (tick [segA] c3State 15) 16).events
      = (tick [segA] c3State 15).events ∧
    (tick [segA] (tick [segA] c3State 15) 16).loopCountBySeg
      = (tick [segA] c3State 15).loopCountBySeg :=
  exit_policy_once_per_exit [segA] c3State "A" segA 15 16 rfl rfl rfl rfl rfl
    rfl rfl (by decide) (by decide)

/-- C4 (confirmed): after a hotspot whose seek action carries a (nonzero)
range end is activated, its seek is performed and the chained boundary watch
is pending; a time update not exceeding `rangeEnd + 0.05` leaves the watch
pending, and the first one exceeding it clears the watch and performs a
plain seek to the configured `onEnd` target, with no further input. -/
theorem chained_boundary_watch (cfg : List Segment) (s : PState) (h : Hotspot)
    (a : Action) (segO : Option Segment) (ts e tgt t1 t2 : ℚ)
    (ha : h.action = some a) (hty : a.type = "seek") (hst : a.start = some ts)
    (he : a.«end» = some e) (he0 : e ≠ 0) (hoe : h.onEnd = some tgt)
    (ht1 : ¬ t1 > e + 1/20) (ht2 : t2 > e + 1/20)
    (hres1 : activeSegmentOf cfg t1 = none)
    (hres2 : activeSegmentOf cfg t2 = none) :
    (onHotspotClick s h segO).activeHotspot = some h ∧
    (onHotspotClick s h segO).video.time
      = clamp ts 0 (jsOrDur s.video.duration (ts + 1/100)) ∧
    (tick cfg (onHotspotClick s h segO) t1).activeHotspot = some h ∧
    (tick cfg (tick cfg (onHotspotClick s h segO) t1) t2).activeHotspot = none ∧
    (tick cfg (tick cfg (onHotspotClick s h segO) t1) t2).video.time
      = clamp tgt 0 (jsOrDur s.video.duration (tgt + 1/100)) := by
  have h0 : onHotspotClick s h segO
      = { psSeekTo { s with
            userChoseInSegment := true, showOverlays := false,
            events := s.events ++ [Event.hotspotClick h.id (segO.map Segment.id)] }
          ts with
          activeHotspot := some h } := by
    simp only [onHotspotClick, ha]
    rw [performAction_seek _ a ts hty hst]
  have c1 : (onHotspotClick s h segO).activeHotspot = some h := by rw [h0]
  have c2 : (onHotspotClick s h segO).video.time
      = clamp ts 0 (jsOrDur s.video.duration (ts + 1/100)) := by
    rw [h0]
    rfl
  -- first tick: the watch survives untouched
  have hcw1 : chainedWatchEffect (preTick (onHotspotClick s h segO) t1)
      = preTick (onHotspotClick s h segO) t1 :=
    chainedWatchEffect_not_yet _ h a e c1 ha he ht1
  have hch1 : (preTick (onHotspotClick s h segO) t1).userChoseInSegment = true := by
    rw [show (preTick (onHotspotClick s h segO) t1).userChoseInSegment
        = (onHotspotClick s h segO).userChoseInSegment from rfl, h0]
    rfl
  obtain ⟨i1, i2, i3, i4, i5, i6, i7⟩ :=
    segmentEffect_exit_inert cfg (preTick (onHotspotClick s h segO) t1)
      hres1 hch1
  have htick1 : tick cfg (onHotspotClick s h segO) t1
      = segmentEffect cfg (preTick (onHotspotClick s h segO) t1) := by
    unfold tick
    rw [hcw1]
  have c3 : (tick cfg (onHotspotClick s h segO) t1).activeHotspot = some h := by
    rw [htick1, i5]
    exact c1
  have hA1 : (tick cfg (onHotspotClick s h segO) t1).activeSegmentId = none := by
    rw [htick1, i1]
  have hch2 : (tick cfg (onHotspotClick s h segO) t1).userChoseInSegment = true := by
    rw [htick1, i6]
    exact hch1
  have hdur1 : (tick cfg (onHotspotClick s h segO) t1).video.duration
      = s.video.duration := by
    rw [htick1, i4]
    rw [show (preTick (onHotspotClick s h segO) t1).video.duration
        = (onHotspotClick s h segO).video.duration from rfl, h0]
    rfl
  -- second tick: the watch fires
  have hcw2 : chainedWatchEffect (preTick (tick cfg (onHotspotClick s h segO) t1) t2)
      = psSeekTo
          { preTick (tick cfg (onHotspotClick s h segO) t1) t2 with
            activeHotspot := none } tgt :=
    chainedWatchEffect_fires _ h a e tgt c3 ha he he0 hoe ht2
  have hid2 : (psSeekTo
      { preTick (tick cfg (onHotspotClick s h segO) t1) t2 with
        activeHotspot := none } tgt).activeSegmentId = none := hA1
  have hse2 : segmentEffect cfg (psSeekTo
      { preTick (tick cfg (onHotspotClick s h segO) t1) t2 with
        activeHotspot := none } tgt)
      = psSeekTo
          { preTick (tick cfg (onHotspotClick s h segO) t1) t2 with
            activeHotspot := none } tgt :=
    segmentEffect_of_idle cfg _ hres2 hid2
  have htick2 : tick cfg (tick cfg (onHotspotClick s h segO) t1) t2
      = psSeekTo
          { preTick (tick cfg (onHotspotClick s h segO) t1) t2 with
            activeHotspot := none } tgt := by
    show segmentEffect cfg
        (chainedWatchEffect (preTick (tick cfg (onHotspotClick s h segO) t1) t2))
      = _
    rw [hcw2, hse2]
  refine ⟨c1, c2, c3, ?_, ?_⟩
  · rw [htick2]
    rfl
  · rw [htick2]
    show clamp tgt 0 (jsOrDur (tick cfg (onHotspotClick s h segO) t1).video.duration
        (tgt + 1/100))
      = clamp tgt 0 (jsOrDur s.video.duration (tgt + 1/100))
    rw [hdur1]

/-- C4 witness: the §8 scenario — hotspot `toA` with seek range `14..16` and
`onEnd` 67 activated inside `choice-1`; at `t = 15` the watch is pending,
and at `t = 16.1 > 16.05` the position jumps to 67 (no duration loaded, so
the seek clamps only below). -/
theorem chained_boundary_watch_witness :
    (onHotspotClick pendingChoiceState toAHotspot (some choice1Seg)).activeHotspot
      = some toAHotspot ∧
    (onHotspotClick pendingChoiceState toAHotspot (some choice1Seg)).video.time
      = clamp 14 0 (jsOrDur none (14 + 1/100)) ∧
    (tick [choice1Seg]
        (onHotspotClick pendingChoiceState toAHotspot (some choice1Seg)) 15).activeHotspot
      = some toAHotspot ∧
    (tick [choice1Seg]
        (tick [choice1Seg]
          (onHotspotClick pendingChoiceState toAHotspot (some choice1Seg)) 15)
        (161/10)).activeHotspot = none ∧
    (tick [choice1Seg]
        (tick [choice1Seg]
          (onHotspotClick pendingChoiceState toAHotspot (some choice1Seg)) 15)
        (161/10)).video.time
      = clamp 67 0 (jsOrDur none (67 + 1/100)) :=
  chained_boundary_watch [choice1Seg] pendingChoiceState toAHotspot
    { type := "seek", start := some 14, «end» := some 16 } (some choice1Seg)
    14 16 67 15 (161/10) rfl rfl rfl rfl (by norm_num) rfl (by norm_num)
    (by norm_num)
    (by norm_num [activeSegmentOf, List.find?, choice1Seg])
    (by norm_num [activeSegmentOf, List.find?, choice1Seg])

/-- C7 (counterexample): switching source while the `toA` chained boundary
watch is pending does not clear the watch, and on the new source the first
time update past `16.05` still fires the chained seek: the position jumps to
the old `onEnd` target 67 on the new source. -/
theorem chained_watch_survives_switch_counterexample :
    (switchSource pendingState "altA" 0).activeHotspot = some toAHotspot ∧
    (switchSource pendingState "altA" 0).currentSourceId = "altA" ∧
    (tick [] (switchSource pendingState "altA" 0) (161/10)).video.time = 67 ∧
    (tick [] (switchSource pendingState "altA" 0) (161/10)).activeHotspot
      = none := by
  refine ⟨rfl, rfl, ?_⟩
  unfold tick preTick chainedWatchEffect segmentEffect switchSource
    pendingState toAHotspot activeSegmentOf
  norm_num [psSeekTo, seekTo, clamp, jsOrDur, min_def, max_def, List.find?]

/-- C7 (amended, corrected): `switchSource` leaves a pending chained
boundary watch in place (it never touches `activeHotspot`), so after the
switch the first time update past `rangeEnd + 0.05` still fires the chained
follow-up seek to `onEnd` — on the new source, whose duration is not yet
known, the position becomes `max 0 onEnd`. -/
theorem chained_watch_survives_switch (cfg : List Segment) (s : PState)
    (srcId : String) (startAt : ℚ) (h : Hotspot) (a : Action) (e tgt t : ℚ)
    (hh : s.activeHotspot = some h) (ha : h.action = some a)
    (he : a.«end» = some e) (he0 : e ≠ 0) (hoe : h.onEnd = some tgt)
    (hch : s.userChoseInSegment = true)
    (ht : t > e + 1/20) (hres : activeSegmentOf cfg t = none) :
    (switchSource s srcId startAt).activeHotspot = some h ∧
    (tick cfg (switchSource s srcId startAt) t).activeHotspot = none ∧
    (tick cfg (switchSource s srcId startAt) t).video.time = max 0 tgt := by
  have c1 : (switchSource s srcId startAt).activeHotspot = some h := hh
  have hcw : chainedWatchEffect (preTick (switchSource s srcId startAt) t)
      = psSeekTo
          { preTick (switchSource s srcId startAt) t with
            activeHotspot := none } tgt :=
    chainedWatchEffect_fires _ h a e tgt c1 ha he he0 hoe ht
  have hchZ : (psSeekTo
      { preTick (switchSource s srcId startAt) t with
        activeHotspot := none } tgt).userChoseInSegment = true := hch
  obtain ⟨i1, i2, i3, i4, i5, i6, i7⟩ :=
    segmentEffect_exit_inert cfg
      (psSeekTo
        { preTick (switchSource s srcId startAt) t with
          activeHotspot := none } tgt) hres hchZ
  have htick : tick cfg (switchSource s srcId startAt) t
      = segmentEffect cfg
          (psSeekTo
            { preTick (switchSource s srcId startAt) t with
              activeHotspot := none } tgt) := by
    unfold tick
    rw [hcw]
  refine ⟨c1, ?_, ?_⟩
  · rw [htick, i5]
    rfl
  · rw [htick]
    have : (segmentEffect cfg
        (psSeekTo
          { preTick (switchSource s srcId startAt) t with
            activeHotspot := none } tgt)).video
        = (psSeekTo
            { preTick (switchSource s srcId startAt) t with
              activeHotspot := none } tgt).video := i4
    rw [this]
    show clamp tgt 0 (jsOrDur none (tgt + 1/100)) = max 0 tgt
    unfold clamp jsOrDur
    rw [min_eq_right (by linarith : tgt ≤ tgt + 1/100)]

/-- C7 witness: the concrete pending-watch state switched to `altA` at 0;
at `t = 16.1` the watch fires to `max 0 67`. -/
theorem chained_watch_survives_switch_witness :
    (switchSource pendingState "altA" 0).activeHotspot = some toAHotspot ∧
    (tick [] (switchSource pendingState "altA" 0) (161/10)).activeHotspot
      = none ∧
    (tick [] (switchSource pendingState "altA" 0) (161/10)).video.time
      = max 0 67 :=
  chained_watch_survives_switch [] pendingState "altA" 0 toAHotspot
    { type := "seek", start := some 14, «end» := some 16 } 16 67 (161/10)
    rfl rfl rfl (by norm_num) rfl rfl (by norm_num) rfl

end InteractiveLayer
